import Mathlib

/-!
Shallow embedding of the GCE metadata-server emulator (`main.go`) and proofs
about its credential-resolution, token-issuance, identity-resolution,
attribute-store and handler logic.

Modelling conventions:
* The five override environment variables are a record `Env`; `os.Getenv` of
  a variable is the corresponding field (absent variable = empty string).
* The flag-derived configuration is `ServerConfig`, mirroring `serverConfig`.
* `google.Credentials` is `Credentials`; the global pointer `creds` (which may
  be nil before any assignment) is an `Option Credentials`.
* The oauth2 token-source attached to the credentials is either a static
  token (`oauth2.StaticTokenSource`, which returns its token unchanged and
  never fails) or an external provider, modelled as an opaque handle resolved
  through an oracle function supplied to each operation; independence of a
  result from the oracle expresses that no external provider call influenced
  it.
* Instants are `Int` Unix seconds; the zero `time.Time` is `goZeroTimeSec`.
-/

structure Env where
  googleProjectID : String
  googleNumericProjectID : String
  googleAccessToken : String
  googleIDToken : String
  googleAccountEmail : String
  deriving DecidableEq

structure ServerConfig where
  flPort : String
  flnumericProjectID : String
  fltokenScopes : String
  flprojectID : String
  flserviceAccountEmail : String
  flserviAccountFile : String
  flcustomAttributeFile : String
  flImpersonate : Bool
  deriving DecidableEq

/-- An `oauth2.Token`: access-token string, absolute expiry instant in Unix
seconds (the Go zero `time.Time` is `goZeroTimeSec`), and token type. -/
structure OAuthToken where
  accessToken : String
  expiry : Int
  tokenType : String
  deriving DecidableEq

/-- Unix seconds of the zero `time.Time` (January 1, year 1, 00:00:00 UTC). -/
def goZeroTimeSec : Int := -62135596800

/-- An `oauth2.TokenSource`: either `oauth2.StaticTokenSource` holding a
fixed token, or an external (library/network-backed) source identified by an
opaque handle and resolved through an oracle. -/
inductive TokenSource where
  | static (tok : OAuthToken)
  | external (handle : Nat)
  deriving DecidableEq

/-- `google.Credentials`: project ID, token source, and the raw key-file JSON
bytes (`none` models nil bytes, as in a credentials value built without a
key file). -/
structure Credentials where
  projectID : String
  tokenSource : TokenSource
  json : Option String
  deriving DecidableEq

/-- The `metadataToken` struct serialized in access-token responses. -/
structure MetadataToken where
  accessToken : String
  expiresIn : Int
  tokenType : String
  deriving DecidableEq

/-- The global state read by the request-time operations: the five override
environment variables, the flag configuration, and the `creds` global
(`none` = nil pointer). -/
structure ServerState where
  env : Env
  cfg : ServerConfig
  creds : Option Credentials
  deriving DecidableEq

/-- Resolves a `Token()` call on a token source: a static source returns its
token unchanged and never fails; an external source consults the oracle. -/
def AccessOracle : Type := Nat → Except String OAuthToken

/-- `isEnvironmentOverrideSet`: true iff all five override environment
variables are non-empty (main.go lines 357-362). -/
def isEnvironmentOverrideSet (env : Env) : Bool :=
  env.googleAccessToken != "" && env.googleIDToken != "" &&
    env.googleAccountEmail != "" && env.googleNumericProjectID != "" &&
    env.googleProjectID != ""

/-- The credentials value `getAccessToken` installs into the global `creds`
when the override is set (main.go lines 99-109): a static token source over
the override access token with type Bearer and the zero expiry (the `Expiry`
field is left at its zero value), project ID from the environment, and nil
JSON bytes. -/
def overrideCreds (env : Env) : Credentials :=
  { projectID := env.googleProjectID
  , tokenSource := TokenSource.static
      { accessToken := env.googleAccessToken
      , expiry := goZeroTimeSec
      , tokenType := "Bearer" }
  , json := none }

/-- `TokenSource.Token()`: static sources yield their token with no error;
external sources are resolved by the oracle. -/
def tokenSourceToken (oracle : AccessOracle) : TokenSource → Except String OAuthToken
  | TokenSource.static tok => Except.ok tok
  | TokenSource.external h => oracle h

/-- Models `int(tok.Expiry.Sub(now).Round(time.Second).Seconds())` at
whole-second granularity: `Time.Sub` saturates at plus/minus (2^63 - 1)
nanoseconds, which after `Round(time.Second)`, `Seconds()` and the `int`
conversion truncates to plus/minus 9223372036 seconds; since instants are
whole seconds here, rounding to the nearest second is the identity. -/
def expiresInOf (expiry now : Int) : Int :=
  let d := expiry - now
  if d < -9223372036 then -9223372036
  else if 9223372036 < d then 9223372036
  else d

/-- `getAccessToken` (main.go lines 90-126) as a state transformer on the
`creds` global: when the override is set it first reassigns `creds` to a
freshly built static credential, then calls `Token()` on the (new) source and
converts the expiry to a relative second count. The nil-pointer dereference
that Go would perform when `creds` is nil and the override is not set (a
state startup resolution never produces) is modelled as an error result. -/
def getAccessTokenSt (env : Env) (creds : Option Credentials) (now : Int)
    (oracle : AccessOracle) : Except String MetadataToken × Option Credentials :=
  let creds2 : Option Credentials :=
    if isEnvironmentOverrideSet env then some (overrideCreds env) else creds
  match creds2 with
  | none => (Except.error "nil credentials", creds2)
  | some c =>
    match tokenSourceToken oracle c.tokenSource with
    | Except.error e => (Except.error e, creds2)
    | Except.ok tok =>
        (Except.ok
          { accessToken := tok.accessToken
          , expiresIn := expiresInOf tok.expiry now
          , tokenType := tok.tokenType }, creds2)

/-- The parameters of an external identity-token request: which provider is
used (`impersonate.IDTokenSource` vs `idtoken.NewTokenSource`), the target
principal and the `IncludeEmail` flag for the impersonated variant, the raw
credentials JSON for the key-file variant, and the requested audience. -/
structure IdTokenRequest where
  impersonated : Bool
  targetPrincipal : String
  includeEmail : Bool
  audience : String
  credsJSON : Option String
  deriving DecidableEq

/-- Outcome of an external identity-token request: failure to construct the
token source, failure of the `Token()` fetch, or a token string. -/
inductive IdFetchResult where
  | sourceError (e : String)
  | tokenError (e : String)
  | ok (tok : String)
  deriving DecidableEq

def IdOracle : Type := IdTokenRequest → IdFetchResult

/-- How `getIDToken` turns the external outcome into its result: a source
construction error becomes the fixed message, a fetch error propagates, a
token is returned as-is (main.go lines 150-159). -/
def idFetchToExcept : IdFetchResult → Except String String
  | IdFetchResult.sourceError _ => Except.error "unable to get id_token"
  | IdFetchResult.tokenError e => Except.error e
  | IdFetchResult.ok t => Except.ok t

/-- `getIDToken` (main.go lines 128-160): under the override, the static ID
token is returned with no external call; otherwise the impersonated or
key-file-backed identity-token source is consulted for the audience. The
nil `creds` dereference in the key-file branch (unreachable after startup
resolution) is modelled as an error. -/
def getIDToken (env : Env) (cfg : ServerConfig) (creds : Option Credentials)
    (idOracle : IdOracle) (targetAudience : String) : Except String String :=
  if isEnvironmentOverrideSet env then Except.ok env.googleIDToken
  else if cfg.flImpersonate then
    idFetchToExcept (idOracle
      { impersonated := true
      , targetPrincipal := cfg.flserviceAccountEmail
      , includeEmail := true
      , audience := targetAudience
      , credsJSON := none })
  else
    match creds with
    | none => Except.error "nil credentials"
    | some c =>
      idFetchToExcept (idOracle
        { impersonated := false
        , targetPrincipal := ""
        , includeEmail := false
        , audience := targetAudience
        , credsJSON := c.json })

/-- `getProjectID` (main.go lines 162-169): override environment variable,
else the non-empty configured project ID, else the project ID embedded in
the resolved credentials. The nil `creds` dereference in the last branch
(unreachable once startup resolution has run) yields the default. -/
def getProjectID (s : ServerState) : String :=
  if isEnvironmentOverrideSet s.env then s.env.googleProjectID
  else if s.cfg.flprojectID != "" then s.cfg.flprojectID
  else
    match s.creds with
    | some c => c.projectID
    | none => ""

/-- `getNumericProjectID` (main.go lines 171-176): override environment
variable, else the configured numeric project ID; the credentials are never
consulted. -/
def getNumericProjectID (s : ServerState) : String :=
  if isEnvironmentOverrideSet s.env then s.env.googleNumericProjectID
  else s.cfg.flnumericProjectID

/-- `getServiceAccountEmail` (main.go lines 178-191): override environment
variable, else the non-empty configured email, else the email parsed out of
the key-file JSON by `google.JWTConfigFromJSON` (modelled by the `jwtEmail`
oracle); on a parse error the process exits, modelled as `none`. -/
def getServiceAccountEmail (s : ServerState)
    (jwtEmail : Option String → Except String String) : Option String :=
  if isEnvironmentOverrideSet s.env then some s.env.googleAccountEmail
  else if s.cfg.flserviceAccountEmail != "" then some s.cfg.flserviceAccountEmail
  else
    match jwtEmail ((s.creds.map Credentials.json).getD none) with
    | Except.error _ => none
    | Except.ok email => some email

/-- The custom-attribute map `customAttributeMap`: an association list with
unique keys standing for a Go `map[string]string`. -/
def AttrMap : Type := List (String × String)

/-- Lookup in the attribute map. -/
def attrLookup : List (String × String) → String → Option String
  | [], _ => none
  | (k0, v) :: rest, k => if k0 = k then some v else attrLookup rest k

/-- Insert-or-replace in the attribute map, as a Go map assignment. -/
def attrSet : List (String × String) → String → String → List (String × String)
  | [], k, v => [(k, v)]
  | (k0, v0) :: rest, k, v =>
      if k0 = k then (k, v) :: rest else (k0, v0) :: attrSet rest k v

/-- The seeded default attribute map (main.go line 50). -/
def defaultCustomAttributeMap : List (String × String) := [("k1", "v1"), ("k2", "v2")]

/-- A JSON document, as far as decoding into `map[string]string` needs it. -/
inductive Json where
  | null
  | bool (b : Bool)
  | num (n : Int)
  | str (s : String)
  | arr (xs : List Json)
  | obj (fields : List (String × Json))

/-- What opening and reading a path produces: the file cannot be opened, it
opens but is not well-formed JSON (a `Decode` error), or it parses to a JSON
document. -/
inductive FileRead where
  | openError
  | invalid
  | json (j : Json)

def FileSystem : Type := String → FileRead

/-- Decodes the fields of a JSON object into string pairs: fails (like the
Go decoder) as soon as a value is not a string. -/
def decodeStringFields : List (String × Json) → Option (List (String × String))
  | [] => some []
  | (k, Json.str v) :: rest =>
      (decodeStringFields rest).map (fun tail => (k, v) :: tail)
  | _ :: _ => none

/-- Builds a Go map from decoded pairs in order, so that a duplicated key
keeps its last value. -/
def buildAttrMap (es : List (String × String)) : List (String × String) :=
  es.foldl (fun m kv => attrSet m kv.1 kv.2) []

/-- `json.Decode` into a `map[string]string` variable: a JSON `null` succeeds
and leaves the map nil (hence empty); a JSON object succeeds iff every value
is a string; every other document is a decode error. -/
def decodeStringMap : Json → Option (List (String × String))
  | Json.null => some []
  | Json.obj fields => (decodeStringFields fields).map buildAttrMap
  | _ => none

/-- `setCustomAttributes` (main.go lines 364-384) as a function from the
current map to the new map: empty path is a no-op; an open failure or a
decode failure is logged and leaves the map unchanged; a successful decode
replaces the map wholesale. -/
def setCustomAttributes (fs : FileSystem) (path : String)
    (current : List (String × String)) : List (String × String) :=
  if path = "" then current
  else
    match fs path with
    | FileRead.openError => current
    | FileRead.invalid => current
    | FileRead.json j =>
      match decodeStringMap j with
      | none => current
      | some data => data

/-- An HTTP response as the handlers produce it: the status code written (200
when the handler never calls `WriteHeader`) and the accumulated body. -/
structure HttpResponse where
  status : Nat
  body : String
  deriving DecidableEq

def httpStatusNotFound : Nat := 404

/-- `attributesHandler` (main.go lines 245-254): a present key answers with
its value; an absent key answers `fmt.Fprint(w, http.StatusNotFound)`, which
writes the decimal rendering of 404 into a 200 response. -/
def attributesHandler (attrs : List (String × String)) (key : String) : HttpResponse :=
  match attrLookup attrs key with
  | some val => { status := 200, body := val }
  | none => { status := 200, body := toString httpStatusNotFound }

/-- The `identity` arm of `getServiceAccountHandler` (main.go lines 307-322),
instrumented with the audience passed to `getIDToken` (`none` when
`getIDToken` is never invoked). `audienceParam` is `r.URL.Query()["audience"]`;
Go indexes `k[0]`, and URL query parsing never yields an empty value list for
a present key, so the `headD` default is never consulted. -/
def serviceAccountIdentityCase (s : ServerState) (idOracle : IdOracle)
    (audienceParam : Option (List String)) : Option String × HttpResponse :=
  match audienceParam with
  | none =>
      (none, { status := 400
             , body := "Bad Request\n" ++ "non-empty audience parameter required" })
  | some k =>
    let aud := k.headD ""
    match getIDToken s.env s.cfg s.creds idOracle aud with
    | Except.error _ => (some aud, { status := 500, body := "Internal Server Error\n" })
    | Except.ok t => (some aud, { status := 200, body := t })

/-- The `aliases` arm of `getServiceAccountHandler` (main.go lines 299-301):
the constant body `default` in a 200 response, whatever the account path
segment was. -/
def serviceAccountAliasesResponse : HttpResponse :=
  { status := 200, body := "default" }

/-- The newline-joined rendering of the comma-separated scope list, as built
by the loop over `strings.Split(cfg.fltokenScopes, ",")`. -/
def scopesRendered (tokenScopes : String) : String :=
  (tokenScopes.splitOn ",").foldl (fun acc e => acc ++ e ++ "\n") ""

/-- The `serviceAccountDetails` struct marshalled by the per-account index
handler. -/
structure ServiceAccountDetails where
  aliases : String
  email : String
  scopes : String
  deriving DecidableEq

/-- The marshalled payload of `getServiceAccountIndexHandler` (main.go lines
263-286): the `Aliases` field is the requested account path segment
`vars["acct"]`, the email comes from `getServiceAccountEmail`, the scopes are
the newline-joined list. `none` models the process exit inside
`getServiceAccountEmail` on a key-file parse failure, which produces no
response. -/
def serviceAccountIndexDetails (s : ServerState)
    (jwtEmail : Option String → Except String String) (acct : String) :
    Option ServiceAccountDetails :=
  (getServiceAccountEmail s jwtEmail).map (fun email =>
    { aliases := acct
    , email := email
    , scopes := scopesRendered s.cfg.fltokenScopes })

/-! Concrete fixtures used to evaluate the definitions at specific inputs. -/

/-- An environment with all five override variables set, to conflicting
values against the configuration below. -/
def envO : Env :=
  { googleProjectID := "pid-env"
  , googleNumericProjectID := "123"
  , googleAccessToken := "atok-env"
  , googleIDToken := "idtok-env"
  , googleAccountEmail := "sa@env" }

/-- An environment with no override variable set. -/
def envEmpty : Env :=
  { googleProjectID := ""
  , googleNumericProjectID := ""
  , googleAccessToken := ""
  , googleIDToken := ""
  , googleAccountEmail := "" }

/-- A configuration with every identity-relevant flag set. -/
def cfgConf : ServerConfig :=
  { flPort := ":8080"
  , flnumericProjectID := "999"
  , fltokenScopes := "scope1,scope2"
  , flprojectID := "pid-cfg"
  , flserviceAccountEmail := "sa@cfg"
  , flserviAccountFile := "sa.json"
  , flcustomAttributeFile := ""
  , flImpersonate := false }

/-- The same configuration with the project-ID flag left empty. -/
def cfgNoPid : ServerConfig := { cfgConf with flprojectID := "" }

/-- The same configuration with the numeric-project-ID flag left empty. -/
def cfgNoNum : ServerConfig := { cfgConf with flnumericProjectID := "" }

/-- A key-file-style resolved credential with its own embedded project ID. -/
def credsW : Credentials :=
  { projectID := "pid-creds"
  , tokenSource := TokenSource.external 0
  , json := some "keyfile-json" }

/-- State with the override active and conflicting config and creds values. -/
def sOverride : ServerState := { env := envO, cfg := cfgConf, creds := some credsW }

/-- State with no override and a configured project ID. -/
def sCfg : ServerState := { env := envEmpty, cfg := cfgConf, creds := some credsW }

/-- State with no override and no configured project ID. -/
def sCreds : ServerState := { env := envEmpty, cfg := cfgNoPid, creds := some credsW }

/-- State with no override and an empty configured numeric project ID. -/
def sNoNum : ServerState := { env := envEmpty, cfg := cfgNoNum, creds := some credsW }

/-- An access-token oracle on which every external fetch fails. -/
def oracleFail : AccessOracle := fun _ => Except.error "unavailable"

/-- An identity-token oracle on which every source construction fails. -/
def idOracleFail : IdOracle := fun _ => IdFetchResult.sourceError "unavailable"

/-- A key-file email parser that always fails. -/
def jwtFail : Option String → Except String String := fun _ => Except.error "bad keyfile"

/-- The metadata token the override path produces at instant 1700000000. -/
def mtokNeg : MetadataToken :=
  { accessToken := "atok-env", expiresIn := -9223372036, tokenType := "Bearer" }

/-- A file system holding one attribute file with two string entries. -/
def fsW : FileSystem := fun p =>
  if p = "attrs.json" then
    FileRead.json (Json.obj [("a", Json.str "1"), ("b", Json.str "2")])
  else FileRead.openError

/-- The index-handler payload for account segment `bar` under `sOverride`. -/
def dBar : ServiceAccountDetails :=
  { aliases := "bar", email := "sa@env", scopes := scopesRendered cfgConf.fltokenScopes }

/-- Claim C1: when all five override environment variables are non-empty,
`getAccessToken` returns the override access token verbatim with token type
Bearer, and `getIDToken` returns the override ID token verbatim for every
audience; neither result depends on the external token-provider oracles, so
no external provider call influences them. -/
theorem envOverride_tokens_verbatim (env : Env)
    (h1 : env.googleAccessToken ≠ "") (h2 : env.googleIDToken ≠ "")
    (h3 : env.googleAccountEmail ≠ "") (h4 : env.googleNumericProjectID ≠ "")
    (h5 : env.googleProjectID ≠ "") :
    (∀ (creds : Option Credentials) (now : Int) (oracle : AccessOracle),
        (getAccessTokenSt env creds now oracle).1 =
          Except.ok { accessToken := env.googleAccessToken
                    , expiresIn := expiresInOf goZeroTimeSec now
                    , tokenType := "Bearer" }) ∧
    (∀ (cfg : ServerConfig) (creds : Option Credentials) (idOracle : IdOracle)
        (aud : String),
        getIDToken env cfg creds idOracle aud = Except.ok env.googleIDToken) := by
  have hov : isEnvironmentOverrideSet env = true := by
    simp [isEnvironmentOverrideSet, h1, h2, h3, h4, h5]
  constructor
  · intro creds now oracle
    simp [getAccessTokenSt, hov, overrideCreds, tokenSourceToken]
  · intro cfg creds idOracle aud
    simp [getIDToken, hov]

/-- Witness for C1 at a concrete override environment, instant and oracles. -/
theorem envOverride_tokens_verbatim_witness :
    (getAccessTokenSt envO none 1700000000 oracleFail).1 =
      Except.ok { accessToken := "atok-env"
                , expiresIn := expiresInOf goZeroTimeSec 1700000000
                , tokenType := "Bearer" } ∧
    getIDToken envO cfgConf none idOracleFail "aud-x" = Except.ok "idtok-env" :=
  ⟨(envOverride_tokens_verbatim envO (by decide) (by decide) (by decide)
      (by decide) (by decide)).1 none 1700000000 oracleFail,
   (envOverride_tokens_verbatim envO (by decide) (by decide) (by decide)
      (by decide) (by decide)).2 cfgConf none idOracleFail "aud-x"⟩

lemma expiresInOf_neg (e n : Int) (h : e < n) : expiresInOf e n < 0 := by
  unfold expiresInOf
  dsimp only
  split
  · omega
  · split <;> omega

lemma expiresInOf_nonneg (e n : Int) (h : n ≤ e) : 0 ≤ expiresInOf e n := by
  unfold expiresInOf
  dsimp only
  split
  · omega
  · split <;> omega

/-- Claim C2 (counterexample): with the override active and the current
instant 1700000000 (well after the zero time), `getAccessToken` succeeds and
the `expiresIn` of the returned token is negative, so `expiresInSeconds ≥ 0` does
not hold in every credential mode. -/
theorem getAccessToken_negative_expiresIn_counterexample :
    (getAccessTokenSt envO none 1700000000 oracleFail).1 = Except.ok mtokNeg ∧
    mtokNeg.expiresIn < 0 :=
  ⟨rfl, by decide⟩

/-- Claim C2 (amended): the `expiresIn` of a successful `getAccessToken` result
is the saturated whole-second difference between the expiry of the fetched token
and the current instant; it is nonnegative whenever that expiry is not in
the past, but under the environment override the synthesized static token
carries the zero expiry, so `expiresIn` is negative whenever the current
instant is after the zero time. -/
theorem getAccessToken_expiresIn_characterization (env : Env)
    (creds : Option Credentials) (now : Int) (oracle : AccessOracle)
    (tok : MetadataToken)
    (hok : (getAccessTokenSt env creds now oracle).1 = Except.ok tok) :
    (isEnvironmentOverrideSet env = true →
        tok.expiresIn = expiresInOf goZeroTimeSec now ∧
        (goZeroTimeSec < now → tok.expiresIn < 0)) ∧
    (isEnvironmentOverrideSet env = false →
        ∀ (c : Credentials) (t : OAuthToken), creds = some c →
          tokenSourceToken oracle c.tokenSource = Except.ok t →
          tok.expiresIn = expiresInOf t.expiry now ∧
          (now ≤ t.expiry → 0 ≤ tok.expiresIn)) := by
  constructor
  · intro hov
    simp [getAccessTokenSt, hov, overrideCreds, tokenSourceToken] at hok
    rw [← hok]
    exact ⟨rfl, fun hlt => expiresInOf_neg _ _ hlt⟩
  · intro hov c t hc ht
    subst hc
    simp [getAccessTokenSt, hov, ht] at hok
    rw [← hok]
    exact ⟨rfl, fun hle => expiresInOf_nonneg _ _ hle⟩

/-- Witness for the amended C2 at the concrete override state and instant. -/
theorem getAccessToken_expiresIn_characterization_witness :
    mtokNeg.expiresIn < 0 :=
  ((getAccessToken_expiresIn_characterization envO none 1700000000 oracleFail
      mtokNeg rfl).1 (by decide)).2 (by decide)

/-- Claim C3 (counterexample): from the startup state of override mode,
where the `creds` global is still nil, a single `getAccessToken` call leaves
the credential state changed — the request-time operation does mutate the
resolved credential source. -/
theorem getAccessToken_mutates_creds_counterexample :
    (getAccessTokenSt envO none 1700000000 oracleFail).2 ≠ none := by
  decide

/-- Claim C3 (amended): `getAccessToken` leaves the credential state
unchanged when the environment override is not set, but when it is set the
call overwrites the credential state with a freshly synthesized static
override credential on every invocation — re-evaluating the override check
at call time instead of relying on a startup-time selection. -/
theorem getAccessToken_creds_effect (env : Env) (creds : Option Credentials)
    (now : Int) (oracle : AccessOracle) :
    (getAccessTokenSt env creds now oracle).2 =
      if isEnvironmentOverrideSet env then some (overrideCreds env) else creds := by
  cases hov : isEnvironmentOverrideSet env
  · cases creds with
    | none => simp [getAccessTokenSt, hov]
    | some c =>
        cases ht : tokenSourceToken oracle c.tokenSource <;>
          simp [getAccessTokenSt, hov, ht]
  · simp [getAccessTokenSt, hov, overrideCreds, tokenSourceToken]

/-- Claim C4: `getProjectID` follows the strict three-level precedence —
override environment variable, then a non-empty configured project ID, then
the project ID embedded in the resolved credentials — so for any combination
of conflicting values only the highest-priority present one is returned. -/
theorem getProjectID_precedence (s : ServerState) (c : Credentials) :
    (isEnvironmentOverrideSet s.env = true →
        getProjectID s = s.env.googleProjectID) ∧
    (isEnvironmentOverrideSet s.env = false → s.cfg.flprojectID ≠ "" →
        getProjectID s = s.cfg.flprojectID) ∧
    (isEnvironmentOverrideSet s.env = false → s.cfg.flprojectID = "" →
        s.creds = some c → getProjectID s = c.projectID) := by
  refine ⟨?_, ?_, ?_⟩
  · intro h
    simp [getProjectID, h]
  · intro h h2
    simp [getProjectID, h, h2]
  · intro h h2 h3
    simp [getProjectID, h, h2, h3]

/-- Witness for C4: three states carrying conflicting values for all three
levels; in each only the highest-priority present value wins. -/
theorem getProjectID_precedence_witness :
    getProjectID sOverride = "pid-env" ∧ getProjectID sCfg = "pid-cfg" ∧
    getProjectID sCreds = "pid-creds" :=
  ⟨(getProjectID_precedence sOverride credsW).1 (by decide),
   (getProjectID_precedence sCfg credsW).2.1 (by decide) (by decide),
   (getProjectID_precedence sCreds credsW).2.2 (by decide) (by decide) rfl⟩

/-- Claim C5: `getNumericProjectID` returns the override environment value
when the override is active and the configured numeric project ID otherwise
(even when that configured value is empty); the result never depends on the
resolved credentials, so there is no fallback to an embedded value. -/
theorem getNumericProjectID_no_creds_fallback (s : ServerState) :
    (isEnvironmentOverrideSet s.env = true →
        getNumericProjectID s = s.env.googleNumericProjectID) ∧
    (isEnvironmentOverrideSet s.env = false →
        getNumericProjectID s = s.cfg.flnumericProjectID) ∧
    (∀ cr : Option Credentials,
        getNumericProjectID { s with creds := cr } = getNumericProjectID s) := by
  refine ⟨?_, ?_, fun cr => rfl⟩
  · intro h
    simp [getNumericProjectID, h]
  · intro h
    simp [getNumericProjectID, h]

/-- Witness for C5: concrete override, configured, and empty-configured
states, plus independence from the credentials component. -/
theorem getNumericProjectID_no_creds_fallback_witness :
    getNumericProjectID sOverride = "123" ∧ getNumericProjectID sCfg = "999" ∧
    getNumericProjectID sNoNum = "" ∧
    getNumericProjectID { sCfg with creds := none } = getNumericProjectID sCfg :=
  ⟨(getNumericProjectID_no_creds_fallback sOverride).1 (by decide),
   (getNumericProjectID_no_creds_fallback sCfg).2.1 (by decide),
   (getNumericProjectID_no_creds_fallback sNoNum).2.1 (by decide),
   (getNumericProjectID_no_creds_fallback sCfg).2.2 none⟩

/-- Claim C6: `setCustomAttributes` is a no-op on the empty path; an
unopenable file and a file whose contents fail to decode into a flat
string-to-string mapping both leave the attribute map exactly unchanged; a
valid flat string-to-string JSON object replaces the entire map, so every
key absent from the new object is absent afterwards, whatever was stored
before. -/
theorem setCustomAttributes_atomic (fs : FileSystem)
    (cur : List (String × String)) (path : String) :
    (setCustomAttributes fs "" cur = cur) ∧
    (fs path = FileRead.openError → setCustomAttributes fs path cur = cur) ∧
    (fs path = FileRead.invalid → setCustomAttributes fs path cur = cur) ∧
    (∀ j, fs path = FileRead.json j → decodeStringMap j = none →
        setCustomAttributes fs path cur = cur) ∧
    (∀ j m, path ≠ "" → fs path = FileRead.json j →
        decodeStringMap j = some m →
        setCustomAttributes fs path cur = m ∧
        ∀ k, attrLookup m k = none →
          attrLookup (setCustomAttributes fs path cur) k = none) := by
  refine ⟨by simp [setCustomAttributes], ?_, ?_, ?_, ?_⟩
  · intro h
    by_cases hp : path = ""
    · simp [setCustomAttributes, hp]
    · simp [setCustomAttributes, hp, h]
  · intro h
    by_cases hp : path = ""
    · simp [setCustomAttributes, hp]
    · simp [setCustomAttributes, hp, h]
  · intro j h hd
    by_cases hp : path = ""
    · simp [setCustomAttributes, hp]
    · simp [setCustomAttributes, hp, h, hd]
  · intro j m hp h hd
    have hrepl : setCustomAttributes fs path cur = m := by
      simp [setCustomAttributes, hp, h, hd]
    exact ⟨hrepl, fun k hk => by rw [hrepl]; exact hk⟩

/-- Witness for C6: loading a two-entry object file replaces the seeded map
wholesale (the old key `k1` is gone), and a missing file leaves it as-is. -/
theorem setCustomAttributes_atomic_witness :
    setCustomAttributes fsW "attrs.json" defaultCustomAttributeMap =
      [("a", "1"), ("b", "2")] ∧
    attrLookup (setCustomAttributes fsW "attrs.json" defaultCustomAttributeMap)
      "k1" = none ∧
    setCustomAttributes fsW "missing.json" defaultCustomAttributeMap =
      defaultCustomAttributeMap :=
  ⟨((setCustomAttributes_atomic fsW defaultCustomAttributeMap "attrs.json").2.2.2.2
      (Json.obj [("a", Json.str "1"), ("b", Json.str "2")]) [("a", "1"), ("b", "2")]
      (by decide) rfl rfl).1,
   ((setCustomAttributes_atomic fsW defaultCustomAttributeMap "attrs.json").2.2.2.2
      (Json.obj [("a", Json.str "1"), ("b", Json.str "2")]) [("a", "1"), ("b", "2")]
      (by decide) rfl rfl).2 "k1" rfl,
   (setCustomAttributes_atomic fsW defaultCustomAttributeMap "missing.json").2.1 rfl⟩

/-- Claim C7: the attributes handler answers a stored key with its value and
an absent key with HTTP status 200 whose body is the decimal rendering of
404 — it never sets an HTTP 404 status. -/
theorem attributesHandler_notFound_as_200 (attrs : List (String × String))
    (key : String) :
    (∀ v, attrLookup attrs key = some v →
        attributesHandler attrs key = { status := 200, body := v }) ∧
    (attrLookup attrs key = none →
        attributesHandler attrs key = { status := 200, body := "404" } ∧
        (attributesHandler attrs key).status ≠ 404) := by
  constructor
  · intro v h
    simp [attributesHandler, h]
  · intro h
    have hb : toString httpStatusNotFound = "404" := rfl
    refine ⟨by simp [attributesHandler, h, hb], ?_⟩
    simp [attributesHandler, h]

/-- Witness for C7 on the seeded map: `k1` answers `v1`; an unknown key
answers body `404` with status 200. -/
theorem attributesHandler_notFound_as_200_witness :
    attributesHandler defaultCustomAttributeMap "k1" =
      { status := 200, body := "v1" } ∧
    attributesHandler defaultCustomAttributeMap "unknown" =
      { status := 200, body := "404" } ∧
    (attributesHandler defaultCustomAttributeMap "unknown").status ≠ 404 :=
  ⟨(attributesHandler_notFound_as_200 defaultCustomAttributeMap "k1").1 "v1" rfl,
   ((attributesHandler_notFound_as_200 defaultCustomAttributeMap "unknown").2 rfl).1,
   ((attributesHandler_notFound_as_200 defaultCustomAttributeMap "unknown").2 rfl).2⟩

/-- Claim C8 (counterexample): a request that carries the audience parameter
with an empty value — hence no non-empty audience — is not rejected with
HTTP 400: the handler invokes `getIDToken` with the empty audience and, the
fetch succeeding, answers 200. -/
theorem identityCase_empty_audience_counterexample :
    (serviceAccountIdentityCase sOverride idOracleFail (some [""])).1 = some "" ∧
    (serviceAccountIdentityCase sOverride idOracleFail (some [""])).2.status = 200 :=
  ⟨rfl, rfl⟩

/-- Claim C8 (amended): the identity sub-key answers HTTP 400 with the
explanatory body, without invoking `getIDToken`, exactly when the audience
query parameter is absent; whenever the parameter is present — even with an
empty value — `getIDToken` is invoked with the first value of the parameter. -/
theorem identityCase_audience_presence (s : ServerState) (o : IdOracle)
    (p : Option (List String)) :
    (p = none → serviceAccountIdentityCase s o p =
        (none, { status := 400
               , body := "Bad Request\n" ++ "non-empty audience parameter required" })) ∧
    (∀ vs, p = some vs →
        (serviceAccountIdentityCase s o p).1 = some (vs.headD "")) := by
  constructor
  · intro h
    subst h
    rfl
  · intro vs h
    subst h
    simp only [serviceAccountIdentityCase]
    cases getIDToken s.env s.cfg s.creds o (vs.headD "") <;> rfl

/-- Witness for the amended C8: an absent parameter is answered 400 with no
`getIDToken` call; a present parameter reaches `getIDToken` with its first
value. -/
theorem identityCase_audience_presence_witness :
    serviceAccountIdentityCase sOverride idOracleFail none =
      (none, { status := 400
             , body := "Bad Request\n" ++ "non-empty audience parameter required" }) ∧
    (serviceAccountIdentityCase sOverride idOracleFail (some ["aud-x"])).1 =
      some "aud-x" :=
  ⟨(identityCase_audience_presence sOverride idOracleFail none).1 rfl,
   (identityCase_audience_presence sOverride idOracleFail (some ["aud-x"])).2
      ["aud-x"] rfl⟩

/-- Claim C9 (counterexample): the per-account index payload for the
requested segment `foo` carries `foo` in its aliases field, not the constant
`default`. -/
theorem index_aliases_counterexample :
    (serviceAccountIndexDetails sOverride jwtFail "foo").map
        ServiceAccountDetails.aliases = some "foo" ∧
    ("foo" : String) ≠ "default" :=
  ⟨rfl, by decide⟩

/-- Claim C9 (amended): the aliases sub-key always renders the constant
`default`, while the aliases field of the per-account index payload equals the
requested account path segment — so it reads `default` exactly when that
segment is `default`. -/
theorem aliases_rendering (s : ServerState)
    (jwtEmail : Option String → Except String String) (acct : String) :
    serviceAccountAliasesResponse = { status := 200, body := "default" } ∧
    (∀ d, serviceAccountIndexDetails s jwtEmail acct = some d →
        d.aliases = acct) := by
  refine ⟨rfl, ?_⟩
  intro d h
  cases he : getServiceAccountEmail s jwtEmail with
  | none => simp [serviceAccountIndexDetails, he] at h
  | some email =>
      simp [serviceAccountIndexDetails, he] at h
      rw [← h]

/-- Witness for the amended C9 at a concrete state and account segment. -/
theorem aliases_rendering_witness :
    serviceAccountAliasesResponse = { status := 200, body := "default" } ∧
    dBar.aliases = "bar" :=
  ⟨(aliases_rendering sOverride jwtFail "bar").1,
   (aliases_rendering sOverride jwtFail "bar").2 dBar rfl⟩
